import Mathlib

/-!
Verification of `src/accounting.py` (net-income calculator).

The repository contains a single pure function:

    def net_income(revenues: float, expenses: float, decimals=2) -> float:
        multiplier = 10 ** decimals
        net_income = revenues - expenses
        return math.floor(net_income * multiplier + 0.5) / multiplier

We embed the function over the rationals `ℚ` (exact real-number semantics,
as the specification's computation section describes the formula).  Python's
`10 ** decimals` accepts any integer exponent, producing a fractional
multiplier for negative `decimals`; accordingly `decimals : ℤ` and the
multiplier is a `zpow`.  The literal `0.5` is exactly `1/2`.  `math.floor`
is `Int.floor`.  The Python default argument `decimals=2` is the Lean
default argument `:= 2`.
-/

/-- Embedding of `net_income` from `src/accounting.py`.
`multiplier = 10 ** decimals`, `net = revenues - expenses`
(the Python local is also called `net_income`),
result `= floor(net * multiplier + 0.5) / multiplier`. -/
def net_income (revenues expenses : ℚ) (decimals : ℤ := 2) : ℚ :=
  let multiplier : ℚ := 10 ^ decimals
  let net : ℚ := revenues - expenses
  (⌊net * multiplier + 1/2⌋ : ℚ) / multiplier

/-- Fallible embedding of `net_income`: the only runtime error that the body
of the Python function could surface is a `ZeroDivisionError` from the final
division, so the embedding returns an error exactly when the divisor
`multiplier` is zero and otherwise the value `net_income` computes. -/
def net_incomeE (revenues expenses : ℚ) (decimals : ℤ := 2) : Except String ℚ :=
  let multiplier : ℚ := 10 ^ decimals
  if multiplier = 0 then Except.error "ZeroDivisionError" else
  Except.ok ((⌊(revenues - expenses) * multiplier + 1/2⌋ : ℚ) / multiplier)

/-- The multiplier `10 ^ decimals` is positive for every integer exponent. -/
lemma ten_zpow_pos (d : ℤ) : (0 : ℚ) < 10 ^ d :=
  zpow_pos (by norm_num) d

/-- The error branch of `net_incomeE` is unreachable: it always returns
`Except.ok (net_income revenues expenses decimals)`. -/
lemma net_incomeE_eq_ok (revenues expenses : ℚ) (decimals : ℤ) :
    net_incomeE revenues expenses decimals =
      Except.ok (net_income revenues expenses decimals) := by
  have h := ten_zpow_pos decimals
  simp [net_incomeE, net_income, ne_of_gt h]

/-- `net_income` unfolded, with the multiplier named. -/
lemma net_income_def (r e : ℚ) (d : ℤ) :
    net_income r e d = (⌊(r - e) * 10 ^ d + 1/2⌋ : ℚ) / 10 ^ d := rfl

/-- **C1.** For all rational `revenues`, `expenses` and every non-negative
integer `decimals`, `net_income` returns
`floor((revenues - expenses) * 10^decimals + 0.5) / 10^decimals`,
where `10^decimals` is the ordinary natural-number power. -/
theorem net_income_formula (revenues expenses : ℚ) (decimals : ℕ) :
    net_income revenues expenses decimals =
      (⌊(revenues - expenses) * 10 ^ decimals + 1/2⌋ : ℚ) / 10 ^ decimals := by
  rw [net_income_def, zpow_natCast]

/-- **C4.** The concrete results listed by the specification:
`net_income 1000 400` with the default precision is `600`;
`net_income 1000 400.555 2 = 599.45`; `net_income 10 3 0 = 7`;
and `net_income 0 0 0 = 0`. -/
theorem net_income_concrete_cases :
    net_income 1000 400 = 600 ∧
    net_income 1000 (400555/1000) 2 = 59945/100 ∧
    net_income 10 3 0 = 7 ∧
    net_income 0 0 0 = 0 := by
  refine ⟨?_, ?_, ?_, ?_⟩ <;> norm_num [net_income_def]

/-- **C2.** Whenever `(revenues - expenses) * 10^decimals` lands exactly on a
halfway value `k + 0.5` (`k : ℤ`, negative differences included), `net_income`
rounds toward positive infinity: it returns `(k + 1) / 10^decimals`. -/
theorem net_income_half_toward_pos_inf (revenues expenses : ℚ) (decimals : ℕ) (k : ℤ)
    (h : (revenues - expenses) * 10 ^ decimals = k + 1/2) :
    net_income revenues expenses decimals = ((k : ℚ) + 1) / 10 ^ decimals := by
  rw [net_income_formula, h]
  have hfl : (k : ℚ) + 1/2 + 1/2 = ((k + 1 : ℤ) : ℚ) := by push_cast; ring
  rw [hfl, Int.floor_intCast]
  push_cast
  ring

/-- Witness for **C2** at the spec's own example: `net_income 0 0.5 0 = 0`
(the halfway value `-0.5` rounds up to `0`, not down to `-1`). -/
theorem net_income_half_toward_pos_inf_witness :
    ((0 : ℚ) - 1/2) * 10 ^ (0 : ℕ) = (-1 : ℤ) + 1/2 ∧
    net_income 0 (1/2) 0 = (((-1 : ℤ) : ℚ) + 1) / 10 ^ (0 : ℕ) :=
  ⟨by norm_num, net_income_half_toward_pos_inf 0 (1/2) 0 (-1) (by norm_num)⟩

/-- **C3.** For every finite input and non-negative `decimals` the function is
total and effect-free: the fallible embedding never takes its error branch and
returns exactly the value the pure embedding computes. -/
theorem net_income_total_no_exception (revenues expenses : ℚ) (decimals : ℕ) :
    net_incomeE revenues expenses decimals =
      Except.ok (net_income revenues expenses decimals) :=
  net_incomeE_eq_ok revenues expenses decimals

/-- **C5.** The result times `10^decimals` is exactly an integer: the output
has at most `decimals` fractional digits. -/
theorem net_income_mul_multiplier_int (revenues expenses : ℚ) (decimals : ℕ) :
    ∃ k : ℤ, net_income revenues expenses decimals * 10 ^ decimals = (k : ℚ) := by
  refine ⟨⌊(revenues - expenses) * 10 ^ decimals + 1/2⌋, ?_⟩
  rw [net_income_formula]
  have hm : (10 : ℚ) ^ decimals ≠ 0 := by positivity
  field_simp

/-- **C6.** Equal revenues and expenses yield a net income of `0` at every
non-negative precision. -/
theorem net_income_eq_args_zero (x : ℚ) (decimals : ℕ) :
    net_income x x decimals = 0 := by
  rw [net_income_formula, sub_self, zero_mul, zero_add]
  norm_num

/-- **C7.** Away from halfway points, `net_income` is antisymmetric in its two
arguments: if `(revenues - expenses) * 10^decimals` is not of the form
`k + 0.5`, then swapping the arguments negates the result. -/
theorem net_income_antisymm_off_halfway (revenues expenses : ℚ) (decimals : ℕ)
    (h : ¬ ∃ k : ℤ, (revenues - expenses) * 10 ^ decimals = k + 1/2) :
    net_income revenues expenses decimals =
      - net_income expenses revenues decimals := by
  rw [net_income_formula, net_income_formula]
  set m : ℚ := 10 ^ decimals with hm
  set x : ℚ := (revenues - expenses) * m with hx
  have hxe : (expenses - revenues) * m = -x := by rw [hx]; ring
  rw [hxe]
  set n : ℤ := ⌊x + 1/2⌋ with hn
  have h1 : (n : ℚ) ≤ x + 1/2 := Int.floor_le _
  have h2 : x + 1/2 < n + 1 := Int.lt_floor_add_one _
  have h3 : (n : ℚ) ≠ x + 1/2 := by
    intro heq
    exact h ⟨n - 1, by push_cast; linarith⟩
  have h1s : (n : ℚ) < x + 1/2 := lt_of_le_of_ne h1 h3
  have h4 : ⌊-x + 1/2⌋ = -n := by
    rw [Int.floor_eq_iff]
    constructor
    · push_cast; linarith
    · push_cast; linarith
  rw [h4]
  push_cast
  ring

/-- Witness for **C7** at `revenues = 1/4`, `expenses = 0`, `decimals = 0`:
the difference `1/4` is not a halfway value and the symmetry holds there. -/
theorem net_income_antisymm_off_halfway_witness :
    (¬ ∃ k : ℤ, ((1 : ℚ)/4 - 0) * 10 ^ (0 : ℕ) = k + 1/2) ∧
    net_income (1/4) 0 0 = - net_income 0 (1/4) 0 := by
  have hk : ¬ ∃ k : ℤ, ((1 : ℚ)/4 - 0) * 10 ^ (0 : ℕ) = k + 1/2 := by
    rintro ⟨k, hk⟩
    have h4 : (4 * k : ℚ) = -1 := by norm_num at hk; linarith
    have h5 : (4 * k : ℤ) = -1 := by exact_mod_cast h4
    omega
  exact ⟨hk, net_income_antisymm_off_halfway (1/4) 0 0 hk⟩

/-- **C8.** Rounding is idempotent at a fixed precision: feeding any output of
`net_income` back in (with zero expenses) at the same precision returns it
unchanged. -/
theorem net_income_idempotent (revenues expenses : ℚ) (decimals : ℕ) :
    net_income (net_income revenues expenses decimals) 0 decimals =
      net_income revenues expenses decimals := by
  rw [net_income_formula, net_income_formula]
  set m : ℚ := 10 ^ decimals with hm
  have hm0 : m ≠ 0 := by rw [hm]; positivity
  set k : ℤ := ⌊(revenues - expenses) * m + 1/2⌋ with hk
  have h1 : ((k : ℚ) / m - 0) * m = (k : ℚ) := by field_simp
  rw [h1, Int.floor_int_add]
  norm_num

/-- **C9.** `net_income` is monotone in each argument: increasing revenues
never decreases the result, and increasing expenses never increases it. -/
theorem net_income_monotone (r1 r2 e r e1 e2 : ℚ) (decimals : ℕ) :
    (r1 ≤ r2 → net_income r1 e decimals ≤ net_income r2 e decimals) ∧
    (e1 ≤ e2 → net_income r e2 decimals ≤ net_income r e1 decimals) := by
  have hm : (0 : ℚ) < 10 ^ decimals := by positivity
  constructor
  · intro h
    rw [net_income_formula, net_income_formula]
    apply (div_le_div_iff_of_pos_right hm).mpr
    have hAB : (r1 - e) * 10 ^ decimals + 1/2 ≤ (r2 - e) * 10 ^ decimals + 1/2 := by
      have := mul_le_mul_of_nonneg_right (sub_le_sub_right h e) hm.le
      linarith
    exact_mod_cast Int.floor_le_floor hAB
  · intro h
    rw [net_income_formula, net_income_formula]
    apply (div_le_div_iff_of_pos_right hm).mpr
    have hAB : (r - e2) * 10 ^ decimals + 1/2 ≤ (r - e1) * 10 ^ decimals + 1/2 := by
      have := mul_le_mul_of_nonneg_right (sub_le_sub_left h r) hm.le
      linarith
    exact_mod_cast Int.floor_le_floor hAB

/-- Witness for **C9** at concrete inputs: `1 ≤ 2` gives
`net_income 1 0 0 ≤ net_income 2 0 0`, and `3 ≤ 5` gives
`net_income 0 5 0 ≤ net_income 0 3 0`. -/
theorem net_income_monotone_witness :
    ((1 : ℚ) ≤ 2 ∧ net_income 1 0 0 ≤ net_income 2 0 0) ∧
    ((3 : ℚ) ≤ 5 ∧ net_income 0 5 0 ≤ net_income 0 3 0) :=
  ⟨⟨by norm_num, (net_income_monotone 1 2 0 0 3 5 0).1 (by norm_num)⟩,
   ⟨by norm_num, (net_income_monotone 1 2 0 0 3 5 0).2 (by norm_num)⟩⟩

/-- **C10.** For negative `decimals` the function neither raises nor rejects:
the error branch is still unreachable, the result is still
`floor((revenues - expenses) * 10^decimals + 0.5) / 10^decimals` with the
fractional multiplier `10^decimals`, and the result is an integer multiple of
`10^(-decimals)` (e.g. `decimals = -1` rounds to a multiple of `10`). -/
theorem net_income_negative_decimals (revenues expenses : ℚ) (d : ℤ) (_h : d < 0) :
    net_incomeE revenues expenses d = Except.ok (net_income revenues expenses d) ∧
    net_income revenues expenses d =
      (⌊(revenues - expenses) * 10 ^ d + 1/2⌋ : ℚ) / 10 ^ d ∧
    ∃ k : ℤ, net_income revenues expenses d = (k : ℚ) * 10 ^ (-d) := by
  refine ⟨net_incomeE_eq_ok _ _ _, net_income_def _ _ _,
    ⟨⌊(revenues - expenses) * 10 ^ d + 1/2⌋, ?_⟩⟩
  rw [net_income_def, div_eq_mul_inv, zpow_neg]

/-- Witness for **C10** at `revenues = 14`, `expenses = 0`, `decimals = -1`
(where `net_income 14 0 (-1) = 10`). -/
theorem net_income_negative_decimals_witness :
    ((-1 : ℤ) < 0) ∧
    (net_incomeE 14 0 (-1) = Except.ok (net_income 14 0 (-1)) ∧
     net_income 14 0 (-1) =
       (⌊((14 : ℚ) - 0) * 10 ^ (-1 : ℤ) + 1/2⌋ : ℚ) / 10 ^ (-1 : ℤ) ∧
     ∃ k : ℤ, net_income 14 0 (-1) = (k : ℚ) * 10 ^ (-(-1 : ℤ))) :=
  ⟨by norm_num, net_income_negative_decimals 14 0 (-1) (by norm_num)⟩
